import Mathlib

/-!
Shallow embedding of the Mathematica MCP server (`src/index.ts`).

The server exposes two tools, `execute_mathematica` and `verify_derivation`.
Every tool call first probes that `wolframscript` is reachable, then
dispatches by tool name.  `executeMathematicaCode` writes the code to a
temporary file, runs `wolframscript`, and deletes the file in a
finally-style cleanup; `verifyDerivation` builds one Wolfram-language
program and delegates to `executeMathematicaCode` once.

Effectful operations (subprocess spawns, file writes, deletions, warning
logs) are recorded in an explicit event trace, and their outcomes are
drawn from an explicit `Env` record, so the handlers become pure
functions `Env → inputs → trace × result`.
-/

/-- JavaScript runtime values, as far as the handlers inspect them:
`request.params.arguments` fields have TypeScript type `unknown`. -/
inductive JSVal where
  | undefined : JSVal
  | null : JSVal
  | bool (b : Bool) : JSVal
  | num (n : Int) : JSVal
  | str (s : String) : JSVal
  | arr (xs : List JSVal) : JSVal
  | obj : JSVal

/-- Equality on `Except` results is decidable componentwise. -/
instance {ε α : Type} [DecidableEq ε] [DecidableEq α] : DecidableEq (Except ε α) := fun x y =>
  match x, y with
  | Except.ok a, Except.ok b =>
    if h : a = b then isTrue (by rw [h]) else isFalse (by intro he; cases he; exact h rfl)
  | Except.ok _, Except.error _ => isFalse (by intro he; cases he)
  | Except.error _, Except.ok _ => isFalse (by intro he; cases he)
  | Except.error a, Except.error b =>
    if h : a = b then isTrue (by rw [h]) else isFalse (by intro he; cases he; exact h rfl)

mutual
/-- JavaScript `String(v)` conversion (`String(undefined) = "undefined"`,
arrays join their elements with commas, `null`/`undefined` elements
become empty). -/
def jsToString : JSVal → String
  | JSVal.undefined => "undefined"
  | JSVal.null => "null"
  | JSVal.bool b => if b then "true" else "false"
  | JSVal.num n => toString n
  | JSVal.str s => s
  | JSVal.arr xs => jsArrToString xs
  | JSVal.obj => "[object Object]"

/-- JavaScript array-to-string conversion: elements joined with commas,
`null` and `undefined` elements rendered empty. -/
def jsArrToString : List JSVal → String
  | [] => ""
  | [JSVal.undefined] => ""
  | [JSVal.null] => ""
  | [x] => jsToString x
  | JSVal.undefined :: x :: xs => "," ++ jsArrToString (x :: xs)
  | JSVal.null :: x :: xs => "," ++ jsArrToString (x :: xs)
  | x :: y :: xs => jsToString x ++ "," ++ jsArrToString (y :: xs)
end

/-- JavaScript truthiness (`!v` negates this). -/
def jsTruthy : JSVal → Bool
  | JSVal.undefined => false
  | JSVal.null => false
  | JSVal.bool b => b
  | JSVal.num n => n != 0
  | JSVal.str s => s != ""
  | JSVal.arr _ => true
  | JSVal.obj => true

/-- `Array.isArray`. -/
def JSVal.isArr : JSVal → Bool
  | JSVal.arr _ => true
  | _ => false

/-- Lower-case hex digit, for JSON control-character escapes. -/
def hexDigitChar (n : Nat) : Char :=
  if n < 10 then Char.ofNat (48 + n) else Char.ofNat (87 + n)

/-- JSON escaping of one character, as `JSON.stringify` performs it on
string contents: `"`, `\` and control characters are escaped, everything
else passes through. -/
def jsonEscapeChar (c : Char) : String :=
  if c = '"' then "\\\""
  else if c = '\\' then "\\\\"
  else if c = '\x08' then "\\b"
  else if c = '\t' then "\\t"
  else if c = '\n' then "\\n"
  else if c = '\x0c' then "\\f"
  else if c = '\r' then "\\r"
  else if c.toNat < 32 then
    String.mk ['\\', 'u', '0', '0', hexDigitChar (c.toNat / 16), hexDigitChar (c.toNat % 16)]
  else String.singleton c

/-- A JSON string literal for `s`, as `JSON.stringify` renders it. -/
def jsonQuote (s : String) : String :=
  "\"" ++ String.join (s.data.map jsonEscapeChar) ++ "\""

mutual
/-- `JSON.stringify` on the values the server can pass it.  Inside arrays
`undefined` serializes as `null`; the only object the model carries is
field-free and serializes as an empty-object literal. -/
def jsonStringify : JSVal → String
  | JSVal.undefined => "null"
  | JSVal.null => "null"
  | JSVal.bool b => if b then "true" else "false"
  | JSVal.num n => toString n
  | JSVal.str s => jsonQuote s
  | JSVal.arr xs => "[" ++ jsonStringifyList xs ++ "]"
  | JSVal.obj => "\x7b\x7d"

/-- Array elements serialized and joined with commas. -/
def jsonStringifyList : List JSVal → String
  | [] => ""
  | [x] => jsonStringify x
  | x :: y :: xs => jsonStringify x ++ "," ++ jsonStringifyList (y :: xs)
end

/-- ASCII lower-casing of one character, as `String.prototype.toLowerCase`
acts on the ASCII range (the only range the format keywords use). -/
def jsCharToLower (c : Char) : Char :=
  if 65 ≤ c.toNat ∧ c.toNat ≤ 90 then Char.ofNat (c.toNat + 32) else c

/-- JavaScript `format.toLowerCase()` (ASCII range). -/
def jsToLower (s : String) : String :=
  String.mk (s.data.map jsCharToLower)

/-- JavaScript `stdout.trim()`: drop whitespace from both ends. -/
def jsTrim (s : String) : String :=
  String.mk (((s.data.dropWhile Char.isWhitespace).reverse.dropWhile Char.isWhitespace).reverse)

/-- Error codes of the MCP protocol errors the server raises. -/
inductive ErrorCode where
  | invalidParams : ErrorCode
  | internalError : ErrorCode
  | methodNotFound : ErrorCode
deriving DecidableEq, Repr

/-- `McpError` as thrown by the handlers: a protocol error code plus a
message (the SDK may prefix the stored message when rendering; the model
keeps the raw text, which is all the handlers concatenate). -/
structure McpError where
  code : ErrorCode
  message : String
deriving DecidableEq, Repr

/-- One observable side effect of a tool call.  `probe` is the
`wolframscript -help` reachability subprocess; `adapterCall` marks entry
into `executeMathematicaCode`; `writeTemp`, `execEngine` and
`unlinkTemp` are the attempted file write, engine subprocess and file
deletion; `logWarning` is a `console.error` warning line. -/
inductive Event where
  | probe : Event
  | adapterCall (code format : String) : Event
  | writeTemp (path content : String) : Event
  | execEngine (cmd : String) : Event
  | logWarning (msg : String) : Event
  | unlinkTemp (path : String) : Event
deriving DecidableEq, Repr

/-- Does this event spawn a subprocess (reachability probe or engine run)? -/
def isSpawn : Event → Bool
  | Event.probe => true
  | Event.execEngine _ => true
  | _ => false

/-- Is this event an engine subprocess run? -/
def isExecEngine : Event → Bool
  | Event.execEngine _ => true
  | _ => false

/-- Is this event an Execution Adapter invocation? -/
def isAdapterCall : Event → Bool
  | Event.adapterCall _ _ => true
  | _ => false

/-- Is this event an attempted temp-file deletion? -/
def isUnlink : Event → Bool
  | Event.unlinkTemp _ => true
  | _ => false

/-- Outcomes of the effectful operations a single tool call performs:
whether `wolframscript -help` succeeds, the temp-file path the adapter
generates, and the outcomes of `writeFile`, `execAsync` (stdout and
stderr on success, error message on failure) and `unlink`. -/
structure Env where
  probeOk : Bool
  tempPath : String
  writeResult : Except String Unit
  execResult : Except String (String × String)
  unlinkResult : Except String Unit
deriving DecidableEq, Repr

/-- The `-format` flag selection of `executeMathematicaCode`
(`switch (format.toLowerCase())` with a `text` default). -/
def formatOption (format : String) : String :=
  if jsToLower format = "latex" then "-format latex"
  else if jsToLower format = "mathematica" then "-format mathematica"
  else "-format text"

/-- `executeMathematicaCode(code, format)`: choose the format flag, write
`code` to the temp file, run `wolframscript ... -file "<path>"`, trim its
stdout; on any failure throw an `InternalError` `McpError`; in all cases
attempt to delete the temp file, logging (not escalating) a deletion
failure.  Returns the event trace together with the result. -/
def executeMathematicaCode (env : Env) (code : String) (format : String) :
    List Event × Except McpError String :=
  let fmtOpt := formatOption format
  let cleanup :=
    match env.unlinkResult with
    | Except.ok _ => [Event.unlinkTemp env.tempPath]
    | Except.error _ => [Event.unlinkTemp env.tempPath,
        Event.logWarning "Failed to delete temporary file"]
  match env.writeResult with
  | Except.error e =>
      ([Event.adapterCall code format, Event.writeTemp env.tempPath code] ++ cleanup,
       Except.error ⟨ErrorCode.internalError, "Failed to execute Mathematica code: " ++ e⟩)
  | Except.ok _ =>
      let cmd := "wolframscript " ++ fmtOpt ++ " -file \"" ++ env.tempPath ++ "\""
      match env.execResult with
      | Except.error e =>
          ([Event.adapterCall code format, Event.writeTemp env.tempPath code,
            Event.execEngine cmd] ++ cleanup,
           Except.error ⟨ErrorCode.internalError, "Failed to execute Mathematica code: " ++ e⟩)
      | Except.ok (stdout, stderr) =>
          let warn := if stderr = "" then []
            else [Event.logWarning "Mathematica execution produced stderr output"]
          ([Event.adapterCall code format, Event.writeTemp env.tempPath code,
            Event.execEngine cmd] ++ warn ++ cleanup,
           Except.ok (jsTrim stdout))

/-- The Wolfram-language verification program `verifyDerivation` builds
(the template literal of `src/index.ts`, with `JSON.stringify(steps)`
spliced in). -/
def verificationCode (steps : List JSVal) : String :=
  String.intercalate "\n"
    [ ""
    , "      steps = " ++ jsonStringify (JSVal.arr steps) ++ ";"
    , "      results = \x7b\x7d;"
    , "      "
    , "      (* Check if each step follows from the previous *)"
    , "      For[i = 2, i <= Length[steps], i++,"
    , "        prev = ToExpression[steps[[i-1]]];"
    , "        current = ToExpression[steps[[i]]];"
    , "        "
    , "        (* Check if they\u0027re mathematically equivalent *)"
    , "        equivalent = Simplify[prev == current];"
    , "        "
    , "        (* Store the result *)"
    , "        AppendTo[results, \x7b"
    , "          \"step\" -> i,"
    , "          \"expression\" -> steps[[i]],"
    , "          \"equivalent\" -> equivalent,"
    , "          \"simplification\" -> Simplify[current]"
    , "        \x7d];"
    , "      ];"
    , "      "
    , "      (* Format the results *)"
    , "      FormattedResults = \"Derivation Verification Results:\\n\\n\";"
    , "      "
    , "      For[i = 1, i <= Length[results], i++,"
    , "        result = results[[i]];"
    , "        stepNum = result[\"step\"];"
    , "        expr = result[\"expression\"];"
    , "        isEquiv = result[\"equivalent\"];"
    , "        "
    , "        FormattedResults = FormattedResults <> "
    , "          \"Step \" <> ToString[stepNum] <> \": \" <> expr <> \"\\n\" <>"
    , "          \"  Valid: \" <> ToString[isEquiv] <> \"\\n\\n\";"
    , "      ];"
    , "      "
    , "      FormattedResults"
    , "    " ]

/-- `verifyDerivation(steps, format)`: reject fewer than two steps with
`InvalidParams`, otherwise delegate the generated program to
`executeMathematicaCode` once, wrapping any thrown error into an
`InternalError` with a `Failed to verify derivation` message. -/
def verifyDerivation (env : Env) (steps : List JSVal) (format : String) :
    List Event × Except McpError String :=
  if steps.length < 2 then
    ([], Except.error ⟨ErrorCode.invalidParams,
      "At least two steps are required for a derivation"⟩)
  else
    let res := executeMathematicaCode env (verificationCode steps) format
    match res.2 with
    | Except.ok s => (res.1, Except.ok s)
    | Except.error e => (res.1, Except.error ⟨ErrorCode.internalError,
        "Failed to verify derivation: " ++ e.message⟩)

/-- A tool-call response: one text content block plus the `isError` flag
(absent in the success shape of the source, modelled as `false`). -/
structure ToolResponse where
  text : String
  isError : Bool
deriving DecidableEq, Repr

/-- The arguments object of a tool call; a missing field is `undefined`,
exactly as `request.params.arguments?.field` evaluates. -/
structure ToolArgs where
  code : JSVal := JSVal.undefined
  steps : JSVal := JSVal.undefined
  format : JSVal := JSVal.undefined

/-- The error text returned when the reachability probe fails. -/
def probeFailText : String :=
  "Error: Mathematica (wolframscript) is not installed or not accessible. Please make sure Mathematica is installed and wolframscript is in your PATH."

/-- The `switch (request.params.name)` body of the tool-call handler:
argument validation, delegation, and conversion of thrown execution
errors into error-flagged successful responses. -/
def dispatchToolCall (env : Env) (name : String) (args : ToolArgs) :
    List Event × Except McpError ToolResponse :=
  if name = "execute_mathematica" then
    let code := jsToString args.code
    let format := jsToString (if jsTruthy args.format then args.format else JSVal.str "text")
    if code = "" then
      ([], Except.error ⟨ErrorCode.invalidParams, "Mathematica code is required"⟩)
    else
      let res := executeMathematicaCode env code format
      match res.2 with
      | Except.ok s => (res.1, Except.ok ⟨s, false⟩)
      | Except.error e => (res.1, Except.ok
          ⟨"Error executing Mathematica code: " ++ e.message, true⟩)
  else if name = "verify_derivation" then
    let format := jsToString (if jsTruthy args.format then args.format else JSVal.str "text")
    match args.steps with
    | JSVal.arr xs =>
      if xs.length < 2 then
        ([], Except.error ⟨ErrorCode.invalidParams,
          "At least two derivation steps are required"⟩)
      else
        let res := verifyDerivation env xs format
        match res.2 with
        | Except.ok s => (res.1, Except.ok ⟨s, false⟩)
        | Except.error e => (res.1, Except.ok
            ⟨"Error verifying derivation: " ++ e.message, true⟩)
    | _ =>
      ([], Except.error ⟨ErrorCode.invalidParams,
        "At least two derivation steps are required"⟩)
  else
    ([], Except.error ⟨ErrorCode.methodNotFound, "Unknown tool: " ++ name⟩)

/-- The full `CallToolRequestSchema` handler: run the reachability probe,
short-circuit with an error-flagged response when it fails, otherwise
dispatch by tool name. -/
def handleToolCall (env : Env) (name : String) (args : ToolArgs) :
    List Event × Except McpError ToolResponse :=
  let rest :=
    if env.probeOk then dispatchToolCall env name args
    else ([], Except.ok ⟨probeFailText, true⟩)
  (Event.probe :: rest.1, rest.2)

/-- Modelled from the spec: one record of the generated verification
program, as the `AppendTo[results, ...]` loop accumulates it for each
step index `i` from 2 to `Length[steps]` — the step index, the original
step text `steps[[i]]`, the engine's `ToString` rendering of
`Simplify[prev == current]`, and of `Simplify[current]`.  The external
engine that evaluates the program is not part of `src/`; the engine's
`Simplify` verdicts enter as oracles. -/
structure StepRecord where
  step : Nat
  expression : String
  equivalent : String
  simplification : String

/-- Modelled from the spec: the records the generated program's first
loop accumulates, one per index `i = 2 .. Length[steps]` (`eqv i` and
`simpl i` are the engine's rendered `Simplify` results at index `i`). -/
def buildRecords (steps : List String) (eqv simpl : Nat → String) : List StepRecord :=
  (List.range' 2 (steps.length - 1)).map fun i =>
    ⟨i, steps.getD (i - 1) "", eqv i, simpl i⟩

/-- The report fragment the generated program appends for one record:
a `Step N: ...` line followed by a `  Valid: ...` line. -/
def stepBlock (i : Nat) (expr : String) (verdict : String) : String :=
  "Step " ++ toString i ++ ": " ++ expr ++ "\n" ++ "  Valid: " ++ verdict ++ "\n\n"

/-- Modelled from the spec: the formatting loop of the generated program,
appending one `stepBlock` per accumulated record. -/
def formatRecords : List StepRecord → String
  | [] => ""
  | r :: rs => stepBlock r.step r.expression r.equivalent ++ formatRecords rs

/-- Modelled from the spec: the report text the external engine produces
when it evaluates the generated verification program on `steps`
(1-indexed in the program), given its `Simplify` verdicts. -/
def verificationReport (steps : List String) (eqv simpl : Nat → String) : String :=
  "Derivation Verification Results:\n\n" ++ formatRecords (buildRecords steps eqv simpl)

/-- An environment in which every operation succeeds: probe ok, write ok,
engine prints `4` with empty stderr, deletion ok. -/
def envOk : Env :=
  { probeOk := true
  , tempPath := "/tmp/mcp_mathematica_1_a.wl"
  , writeResult := Except.ok ()
  , execResult := Except.ok ("4", "")
  , unlinkResult := Except.ok () }

/-- An environment in which the reachability probe fails. -/
def envProbeFail : Env :=
  { envOk with probeOk := false }

/-- An environment in which the temp-file write fails. -/
def envWriteFail : Env :=
  { envOk with writeResult := Except.error "EACCES" }

/-- An environment in which the engine subprocess fails. -/
def envExecFail : Env :=
  { envOk with execResult := Except.error "Command failed" }

/-- An environment in which deleting the temp file fails. -/
def envUnlinkFail : Env :=
  { envOk with unlinkResult := Except.error "ENOENT" }

/-- Does a handler result raise a protocol-level `InvalidParams` error? -/
def isInvalidParamsResult (r : List Event × Except McpError ToolResponse) : Bool :=
  match r.2 with
  | Except.error e =>
    match e.code with
    | ErrorCode.invalidParams => true
    | _ => false
  | Except.ok _ => false

/-- The block a record contributes is a substring of the formatted output
of any record list containing it. -/
theorem stepBlock_infix_formatRecords (r : StepRecord) (rs : List StepRecord) (h : r ∈ rs) :
    (stepBlock r.step r.expression r.equivalent).data <:+: (formatRecords rs).data := by
  induction rs with
  | nil => cases h
  | cons a as ih =>
    rcases List.mem_cons.mp h with rfl | h
    · exact ⟨[], (formatRecords as).data, by simp [formatRecords, String.data_append]⟩
    · obtain ⟨s, t, hst⟩ := ih h
      exact ⟨(stepBlock a.step a.expression a.equivalent).data ++ s, t,
        by simp [formatRecords, String.data_append, ← hst]⟩

/-- A substring of `b` is a substring of `a ++ b` (on string data). -/
theorem infix_data_append_left (a b : String) (l : List Char) (h : l <:+: b.data) :
    l <:+: (a ++ b).data := by
  obtain ⟨s, t, hst⟩ := h
  exact ⟨a.data ++ s, t, by simp [String.data_append, ← hst]⟩

/-- The record built for index `i` belongs to `buildRecords` whenever
`2 ≤ i ≤ steps.length`. -/
theorem mem_buildRecords (steps : List String) (eqv simpl : Nat → String) (i : Nat)
    (h2 : 2 ≤ i) (hn : i ≤ steps.length) :
    (⟨i, steps.getD (i - 1) "", eqv i, simpl i⟩ : StepRecord) ∈ buildRecords steps eqv simpl := by
  apply List.mem_map_of_mem
  rw [List.mem_range'_1]
  omega

/-- C1: the claim states that a `verify_derivation` call with fewer than
two steps fails with `InvalidParams` and spawns no subprocess of any
kind.  At the concrete input below (probe succeeding, one step) the call
does fail with `InvalidParams`, but one subprocess — the
`wolframscript -help` reachability probe that every tool call runs
first — is spawned, refuting the `no subprocess of any kind` part. -/
theorem c1_counterexample :
    ((handleToolCall envOk "verify_derivation"
        ⟨JSVal.undefined, JSVal.arr [JSVal.str "x"], JSVal.undefined⟩).2 =
      Except.error ⟨ErrorCode.invalidParams, "At least two derivation steps are required"⟩) ∧
    ((handleToolCall envOk "verify_derivation"
        ⟨JSVal.undefined, JSVal.arr [JSVal.str "x"], JSVal.undefined⟩).1.countP isSpawn = 1) :=
  ⟨rfl, by decide⟩

/-- C1 (amended): provided the reachability probe succeeds, every
`verify_derivation` call whose `steps` argument is an array with fewer
than two elements fails with an `InvalidParams` error, and the only
event of the call is the probe — in particular no engine subprocess is
spawned and no temporary file is created. -/
theorem c1_theorem (env : Env) (c f : JSVal) (xs : List JSVal)
    (hp : env.probeOk = true) (hl : xs.length < 2) :
    handleToolCall env "verify_derivation" ⟨c, JSVal.arr xs, f⟩ =
      ([Event.probe], Except.error ⟨ErrorCode.invalidParams,
        "At least two derivation steps are required"⟩) := by
  simp [handleToolCall, dispatchToolCall, hp, hl]

/-- C1 witness: the amended statement applied at a concrete input. -/
theorem c1_witness :
    handleToolCall envOk "verify_derivation"
        ⟨JSVal.undefined, JSVal.arr [JSVal.str "x^2"], JSVal.undefined⟩ =
      ([Event.probe], Except.error ⟨ErrorCode.invalidParams,
        "At least two derivation steps are required"⟩) :=
  c1_theorem envOk JSVal.undefined JSVal.undefined [JSVal.str "x^2"] rfl (by decide)

/-- C2: the claim says a missing `code` field fails with `InvalidParams`
before any execution work.  In the code, `String(arguments?.code)` turns
the missing field into the non-empty string `undefined`, which passes
the `!code` guard, so the call proceeds to write `undefined` to the temp
file and execute it in the engine, returning the engine's output — the
guard (and the `required: ["code"]` input schema) never fire. -/
theorem c2_theorem :
    handleToolCall envOk "execute_mathematica"
        ⟨JSVal.undefined, JSVal.undefined, JSVal.undefined⟩ =
      ([Event.probe,
        Event.adapterCall "undefined" "text",
        Event.writeTemp "/tmp/mcp_mathematica_1_a.wl" "undefined",
        Event.execEngine "wolframscript -format text -file \"/tmp/mcp_mathematica_1_a.wl\"",
        Event.unlinkTemp "/tmp/mcp_mathematica_1_a.wl"],
       Except.ok ⟨"4", false⟩) := rfl

/-- C3: every `executeMathematicaCode` invocation attempts exactly one
deletion of its temp file on every exit path; the call's result does not
depend on the deletion outcome; and a deletion failure produces the
warning log line. -/
theorem c3_theorem (env : Env) (code format : String) :
    ((executeMathematicaCode env code format).1.countP isUnlink = 1) ∧
    (Event.unlinkTemp env.tempPath ∈ (executeMathematicaCode env code format).1) ∧
    (∀ u, (executeMathematicaCode { env with unlinkResult := u } code format).2 =
        (executeMathematicaCode env code format).2) ∧
    (∀ m, env.unlinkResult = Except.error m →
        Event.logWarning "Failed to delete temporary file" ∈
          (executeMathematicaCode env code format).1) := by
  obtain ⟨p, tp, w, ex, u⟩ := env
  refine ⟨?_, ?_, ?_, ?_⟩
  · rcases ex with e | ⟨so, se⟩
    · cases w <;> cases u <;> simp [executeMathematicaCode, isUnlink, List.countP_cons]
    · cases w <;> cases u <;> by_cases hse : se = "" <;>
        simp [executeMathematicaCode, isUnlink, List.countP_cons, hse]
  · rcases ex with e | ⟨so, se⟩
    · cases w <;> cases u <;> simp [executeMathematicaCode]
    · cases w <;> cases u <;> by_cases hse : se = "" <;> simp [executeMathematicaCode, hse]
  · intro u'
    rcases ex with e | ⟨so, se⟩
    · cases w <;> cases u' <;> cases u <;> simp [executeMathematicaCode]
    · cases w <;> cases u' <;> cases u <;> simp [executeMathematicaCode]
  · intro m hm
    cases u with
    | ok uu => simp at hm
    | error me =>
      rcases ex with e | ⟨so, se⟩
      · cases w <;> simp [executeMathematicaCode]
      · cases w <;> by_cases hse : se = "" <;> simp [executeMathematicaCode, hse]

/-- C3 witness: with a failing deletion, the warning log line appears in
the trace of a concrete call. -/
theorem c3_witness :
    Event.logWarning "Failed to delete temporary file" ∈
      (executeMathematicaCode envUnlinkFail "2 + 2" "text").1 :=
  (c3_theorem envUnlinkFail "2 + 2" "text").2.2.2 "ENOENT" rfl

/-- C4: when the engine subprocess fails (the probe having succeeded and
the temp file written), both tools return a successful RPC response with
the `isError` flag set and a descriptive message embedding the engine's
error text — the failure is never surfaced as a protocol-level error. -/
theorem c4_theorem (env : Env) (c f : JSVal) (xs : List JSVal) (emsg : String)
    (hp : env.probeOk = true) (hw : env.writeResult = Except.ok ())
    (he : env.execResult = Except.error emsg) :
    (jsToString c ≠ "" →
      (handleToolCall env "execute_mathematica" ⟨c, JSVal.undefined, f⟩).2 =
        Except.ok ⟨"Error executing Mathematica code: " ++
          ("Failed to execute Mathematica code: " ++ emsg), true⟩) ∧
    (2 ≤ xs.length →
      (handleToolCall env "verify_derivation" ⟨c, JSVal.arr xs, f⟩).2 =
        Except.ok ⟨"Error verifying derivation: " ++ ("Failed to verify derivation: " ++
          ("Failed to execute Mathematica code: " ++ emsg)), true⟩) := by
  constructor
  · intro hc
    simp [handleToolCall, dispatchToolCall, hp, hc, executeMathematicaCode, hw, he]
  · intro hn
    have hlt : ¬ (xs.length < 2) := by omega
    simp [handleToolCall, dispatchToolCall, hp, hlt, verifyDerivation,
      executeMathematicaCode, hw, he]

/-- C4 witness: the statement applied to the malformed program `2 + ` and
to a two-step derivation, in an environment whose engine run fails. -/
theorem c4_witness :
    ((handleToolCall envExecFail "execute_mathematica"
        ⟨JSVal.str "2 + ", JSVal.undefined, JSVal.undefined⟩).2 =
      Except.ok ⟨"Error executing Mathematica code: " ++
        ("Failed to execute Mathematica code: " ++ "Command failed"), true⟩) ∧
    ((handleToolCall envExecFail "verify_derivation"
        ⟨JSVal.str "2 + ", JSVal.arr [JSVal.str "a", JSVal.str "b"], JSVal.undefined⟩).2 =
      Except.ok ⟨"Error verifying derivation: " ++ ("Failed to verify derivation: " ++
        ("Failed to execute Mathematica code: " ++ "Command failed")), true⟩) :=
  ⟨(c4_theorem envExecFail (JSVal.str "2 + ") JSVal.undefined [JSVal.str "a", JSVal.str "b"]
      "Command failed" rfl rfl rfl).1 (by decide),
   (c4_theorem envExecFail (JSVal.str "2 + ") JSVal.undefined [JSVal.str "a", JSVal.str "b"]
      "Command failed" rfl rfl rfl).2 (by decide)⟩

/-- C5: the claim states the report carries a `Step N: ...` / `Valid: ...`
pair for every step of the derivation.  At the concrete two-step input
below the generated program's loop runs only from index 2, so the report
contains no `Step 1:` line at all. -/
theorem c5_counterexample :
    ¬ (("Step 1:").data <:+:
        (verificationReport ["a", "b"] (fun _ => "True") (fun _ => "a")).data) := by
  decide

/-- C5 (amended): for every step of the derivation except the first
(indices 2 through n), the report contains a `Step N: <expression>` line
followed by a `  Valid: True` or `  Valid: False` line, according to the
engine's equivalence verdict for that index. -/
theorem c5_theorem (steps : List String) (eqv simpl : Nat → String) (i : Nat)
    (h2 : 2 ≤ i) (hn : i ≤ steps.length)
    (hv : eqv i = "True" ∨ eqv i = "False") :
    ((stepBlock i (steps.getD (i - 1) "") "True").data <:+:
        (verificationReport steps eqv simpl).data) ∨
    ((stepBlock i (steps.getD (i - 1) "") "False").data <:+:
        (verificationReport steps eqv simpl).data) := by
  have hmem := mem_buildRecords steps eqv simpl i h2 hn
  have hblk := stepBlock_infix_formatRecords _ _ hmem
  rcases hv with hv | hv
  · left
    rw [← hv]
    exact infix_data_append_left _ _ _ hblk
  · right
    rw [← hv]
    exact infix_data_append_left _ _ _ hblk

/-- C5 witness: the spec's own example derivation, with the engine
deciding the pair equivalent. -/
theorem c5_witness :
    ((stepBlock 2 "(x-y)*(x+y)" "True").data <:+:
        (verificationReport ["x^2 - y^2", "(x-y)*(x+y)"]
          (fun _ => "True") (fun _ => "x^2 - y^2")).data) ∨
    ((stepBlock 2 "(x-y)*(x+y)" "False").data <:+:
        (verificationReport ["x^2 - y^2", "(x-y)*(x+y)"]
          (fun _ => "True") (fun _ => "x^2 - y^2")).data) :=
  c5_theorem ["x^2 - y^2", "(x-y)*(x+y)"] (fun _ => "True") (fun _ => "x^2 - y^2") 2
    (by decide) (by decide) (Or.inl rfl)

/-- C6: the claim states every Execution Adapter invocation spawns
exactly one engine subprocess.  In the concrete environment below the
temp-file write fails, so the adapter is invoked once by the verifier
but spawns no engine subprocess at all. -/
theorem c6_counterexample :
    ((verifyDerivation envWriteFail [JSVal.str "a", JSVal.str "b"] "text").1.countP
        isAdapterCall = 1) ∧
    ((verifyDerivation envWriteFail [JSVal.str "a", JSVal.str "b"] "text").1.countP
        isExecEngine = 0) := by
  constructor <;> decide

/-- C6 (amended): for at least two steps, the Derivation Verifier invokes
the Execution Adapter exactly once, with the generated verification
program as source text; each adapter invocation spawns at most one
engine subprocess, and exactly one whenever the temp-file write
succeeds. -/
theorem c6_theorem (env : Env) (steps : List JSVal) (format : String)
    (h : 2 ≤ steps.length) :
    ((verifyDerivation env steps format).1.countP isAdapterCall = 1) ∧
    (Event.adapterCall (verificationCode steps) format ∈ (verifyDerivation env steps format).1) ∧
    ((verifyDerivation env steps format).1.countP isExecEngine ≤ 1) ∧
    (env.writeResult = Except.ok () →
      (verifyDerivation env steps format).1.countP isExecEngine = 1) := by
  have hlt : ¬ (steps.length < 2) := by omega
  obtain ⟨p, tp, w, ex, u⟩ := env
  refine ⟨?_, ?_, ?_, ?_⟩
  · rcases ex with e | ⟨so, se⟩
    · cases w <;> cases u <;>
        simp [verifyDerivation, hlt, executeMathematicaCode, isAdapterCall, List.countP_cons]
    · cases w <;> cases u <;> by_cases hse : se = "" <;>
        simp [verifyDerivation, hlt, executeMathematicaCode, isAdapterCall,
          List.countP_cons, hse]
  · rcases ex with e | ⟨so, se⟩
    · cases w <;> cases u <;> simp [verifyDerivation, hlt, executeMathematicaCode]
    · cases w <;> cases u <;> by_cases hse : se = "" <;>
        simp [verifyDerivation, hlt, executeMathematicaCode, hse]
  · rcases ex with e | ⟨so, se⟩
    · cases w <;> cases u <;>
        simp [verifyDerivation, hlt, executeMathematicaCode, isExecEngine, List.countP_cons]
    · cases w <;> cases u <;> by_cases hse : se = "" <;>
        simp [verifyDerivation, hlt, executeMathematicaCode, isExecEngine,
          List.countP_cons, hse]
  · intro hw
    cases w with
    | error we => simp at hw
    | ok ww =>
      rcases ex with e | ⟨so, se⟩
      · cases u <;>
          simp [verifyDerivation, hlt, executeMathematicaCode, isExecEngine, List.countP_cons]
      · cases u <;> by_cases hse : se = "" <;>
          simp [verifyDerivation, hlt, executeMathematicaCode, isExecEngine,
            List.countP_cons, hse]

/-- C6 witness: in a fully successful environment a concrete two-step
verification spawns exactly one engine subprocess. -/
theorem c6_witness :
    (verifyDerivation envOk [JSVal.str "a", JSVal.str "b"] "text").1.countP isExecEngine = 1 :=
  (c6_theorem envOk [JSVal.str "a", JSVal.str "b"] "text" (by decide)).2.2.2 rfl

/-- C7: every tool call, whatever its name and arguments, begins with a
fresh run of the engine-reachability probe (the model re-evaluates it on
each call; the source keeps no cache across calls), and when the probe
fails the handler returns the descriptive error-flagged response with no
dispatch and no further work — the probe is the call's only event. -/
theorem c7_theorem (env : Env) (name : String) (args : ToolArgs) :
    ((handleToolCall env name args).1.head? = some Event.probe) ∧
    (env.probeOk = false →
      handleToolCall env name args = ([Event.probe], Except.ok ⟨probeFailText, true⟩)) := by
  constructor
  · simp [handleToolCall]
  · intro h
    simp [handleToolCall, h]

/-- C7 witness: a concrete call with the probe failing. -/
theorem c7_witness :
    handleToolCall envProbeFail "execute_mathematica"
        ⟨JSVal.str "2 + 2", JSVal.undefined, JSVal.undefined⟩ =
      ([Event.probe], Except.ok ⟨probeFailText, true⟩) :=
  (c7_theorem envProbeFail "execute_mathematica"
    ⟨JSVal.str "2 + 2", JSVal.undefined, JSVal.undefined⟩).2 rfl

/-- C8: the adapter maps `latex` and `mathematica` to their
`wolframscript` flags, and every other value (after lower-casing) falls
back to the `-format text` flag — the mapping is total, so no value
causes an error. -/
theorem c8_theorem :
    (formatOption "latex" = "-format latex") ∧
    (formatOption "mathematica" = "-format mathematica") ∧
    (∀ s, jsToLower s ≠ "latex" → jsToLower s ≠ "mathematica" →
      formatOption s = "-format text") := by
  refine ⟨rfl, rfl, ?_⟩
  intro s h1 h2
  simp [formatOption, h1, h2]

/-- C8 witness: an unrecognized format value falls back to the text flag. -/
theorem c8_witness : formatOption "json" = "-format text" :=
  c8_theorem.2.2 "json" (by decide) (by decide)

/-- C9: the flag the adapter chooses depends only on the lower-cased
format string, so differently-cased spellings select the same flag. -/
theorem c9_theorem (s t : String) (h : jsToLower s = jsToLower t) :
    formatOption s = formatOption t := by
  simp [formatOption, h]

/-- C9 witness: `LaTeX` and `latex` produce the same engine flag. -/
theorem c9_witness : formatOption "LaTeX" = formatOption "latex" :=
  c9_theorem "LaTeX" "latex" (by decide)

/-- C10: the claim states every `verify_derivation` call with a present
non-array `steps` raises `InvalidParams`.  At the concrete input below
(`steps` is the string `abc` but the reachability probe fails) the call
raises no `InvalidParams` error: it returns the error-flagged
availability response instead. -/
theorem c10_counterexample :
    (isInvalidParamsResult (handleToolCall envProbeFail "verify_derivation"
        ⟨JSVal.undefined, JSVal.str "abc", JSVal.undefined⟩) = false) ∧
    ((handleToolCall envProbeFail "verify_derivation"
        ⟨JSVal.undefined, JSVal.str "abc", JSVal.undefined⟩).2 =
      Except.ok ⟨probeFailText, true⟩) :=
  ⟨rfl, rfl⟩

/-- C10 (amended): provided the reachability probe succeeds, every
`verify_derivation` call whose `steps` argument is not an array fails
with an `InvalidParams` error, and the probe is the call's only event —
no verification work is attempted. -/
theorem c10_theorem (env : Env) (c f v : JSVal)
    (hp : env.probeOk = true) (hv : v.isArr = false) :
    handleToolCall env "verify_derivation" ⟨c, v, f⟩ =
      ([Event.probe], Except.error ⟨ErrorCode.invalidParams,
        "At least two derivation steps are required"⟩) := by
  cases v <;> simp_all [handleToolCall, dispatchToolCall, JSVal.isArr]

/-- C10 witness: the amended statement at a concrete string-valued
`steps`. -/
theorem c10_witness :
    handleToolCall envOk "verify_derivation"
        ⟨JSVal.undefined, JSVal.str "abc", JSVal.undefined⟩ =
      ([Event.probe], Except.error ⟨ErrorCode.invalidParams,
        "At least two derivation steps are required"⟩) :=
  c10_theorem envOk JSVal.undefined JSVal.undefined (JSVal.str "abc") rfl rfl
